import Mathlib

/-!
Shallow embedding of `dynamo.go` from paxful/ephemera (Go package `sharedpw`).

The Go unit persists one-time secrets in DynamoDB.  The store is modelled as
an explicit state (`DB`): a list of `Secret` records keyed by their `Secret`
field, plus injectable failure outcomes for the put, query and delete calls
(the DynamoDB client is an external collaborator, so its failures are free
parameters).  Time is a caller-supplied unix timestamp in seconds (`now`),
matching `time.Now().UTC().…Unix()`.  Go `error` values are modelled as
`Option String` carrying the exact message built by `errors.New` /
`fmt.Sprintf` in the source.  `net.IP` arguments are modelled by the string
the code compares against (`ip.String()`).
-/

/-- The `Secret` struct of dynamo.go: the record saved to the store.
Field names and defaults (Go zero values) follow the source. `Err` is the
Go `error` field, modelled as an optional message. -/
structure Secret where
  Secret : String := ""
  Expire : Int := 0
  Hours : Int := 0
  Message : String := ""
  Ip : String := ""
  HasPass : Bool := false
  Hint : String := ""
  Err : Option String := none
  Tag : String := ""
  Iv : String := ""
  PwTag : String := ""
  PwIv : String := ""
  deriving Repr, DecidableEq

/-- The `Revealed` struct of dynamo.go: the response of a secret lookup.
Defaults are the Go zero values. -/
structure Revealed where
  Secret : String := ""
  Exists : Bool := false
  HasPass : Bool := false
  Hint : String := ""
  Tag : String := ""
  Iv : String := ""
  PwTag : String := ""
  PwIv : String := ""
  deriving Repr, DecidableEq

/-- The DynamoDB store as seen by dynamo.go: the table contents (records
keyed by their `Secret` field) together with injectable outcomes of the
three store calls the unit makes (`PutItem`, `Query`, `DeleteItem`).
`none` means the call succeeds. -/
structure DB where
  items : List Secret := []
  putErr : Option String := none
  queryErr : Option String := none
  deleteErr : Option String := none
  deriving Repr, DecidableEq

/-- Result of one `Reveal` call: the returned `Revealed` value and error,
the store state afterwards, and how many Query / DeleteItem calls were
issued (for the spec's store-call-counter properties). -/
structure RevealResult where
  revealed : Revealed
  err : Option String
  db : DB
  queryCalls : Nat
  deleteCalls : Nat
  deriving Repr, DecidableEq

/-- Result of one `Save` call: the mutated receiver, the store state
afterwards, and the returned error. -/
structure SaveResult where
  secret : Secret
  db : DB
  err : Option String
  deriving Repr, DecidableEq

/-- Value of a standard-base64-alphabet character (`A-Za-z0-9+/`),
`none` for any other character, as in Go `encoding/base64.StdEncoding`. -/
def b64Val (c : Char) : Option Nat :=
  if 'A' ≤ c && c ≤ 'Z' then some (c.toNat - 65)
  else if 'a' ≤ c && c ≤ 'z' then some (c.toNat - 71)
  else if '0' ≤ c && c ≤ '9' then some (c.toNat + 4)
  else if c == '+' then some 62
  else if c == '/' then some 63
  else none

/-- Base64 standard decoding over 4-character quanta with `=` padding
allowed only in the final quantum, as Go's
`base64.StdEncoding.DecodeString` behaves on padded input
(non-canonical trailing bits are dropped, not rejected). Bytes are
`Nat` values below 256. -/
def decodeB64 : List Char → Option (List Nat)
  | [] => some []
  | c1 :: c2 :: c3 :: c4 :: rest => do
      let v1 ← b64Val c1
      let v2 ← b64Val c2
      if c3 == '=' then
        if c4 == '=' && rest.isEmpty then
          pure [v1 * 4 + v2 / 16]
        else none
      else do
        let v3 ← b64Val c3
        if c4 == '=' then
          if rest.isEmpty then
            pure [v1 * 4 + v2 / 16, (v2 % 16) * 16 + v3 / 4]
          else none
        else do
          let v4 ← b64Val c4
          let tail ← decodeB64 rest
          pure ([v1 * 4 + v2 / 16, (v2 % 16) * 16 + v3 / 4, (v3 % 4) * 64 + v4] ++ tail)
  | _ => none

/-- Decode a base64 string, the model of
`base64.StdEncoding.DecodeString` applied in Reveal. -/
def decodeBase64 (s : String) : Option (List Nat) :=
  decodeB64 s.toList

/-- A word character in Go's regexp sense: `\w` is `[0-9A-Za-z_]`. -/
def wordChar (c : Char) : Bool :=
  ('0' ≤ c && c ≤ '9') || ('a' ≤ c && c ≤ 'z') || ('A' ≤ c && c ≤ 'Z') || c == '_'

/-- One character matching Reveal's rejection regexp `\W|[g-zA-Z]`:
either a non-word character, or a letter in `g`–`z`, or an uppercase
letter `A`–`Z`. -/
def notHexChar (c : Char) : Bool :=
  !wordChar c || ('g' ≤ c && c ≤ 'z') || ('A' ≤ c && c ≤ 'Z')

/-- `regexp.MatchString` of the unanchored pattern over the id: true iff
some character of the id matches the class. -/
def notHex (id : String) : Bool :=
  id.toList.any notHexChar

/-- NewSecret of dynamo.go. `GetRandomId` lives in another file of the
repository and is treated as the generator collaborator: its outcome is
the `idResult` parameter (`ok id` or a generation error). -/
def NewSecret (now : Int) (idResult : Except String String) : Secret :=
  let s : Secret := { Expire := now + 72 * 3600 }
  match idResult with
  | .error e => { s with Err := some e }
  | .ok id => { s with Secret := id }

/-- SetTimeout of dynamo.go: rejects an hour count outside 1..72 with
the error `invalid expiration` and no mutation; otherwise recomputes
`Expire` from now. Returned pair is (receiver after the call, error). -/
def SetTimeout (s : Secret) (now : Int) : Secret × Option String :=
  if s.Hours < 1 || s.Hours > 72 then (s, some "invalid expiration")
  else ({ s with Expire := now + 3600 * s.Hours }, none)

/-- Save of dynamo.go: if `Expire` is zero, default it to now + 24h;
store the encoded payload in `Message`; then PutItem the record, which
replaces any stored item with the same key. A put failure is returned
unchanged (the receiver is mutated regardless, as in the source). -/
def Save (s : Secret) (b64EncSecret : String) (now : Int) (db : DB) : SaveResult :=
  let s1 := if s.Expire == 0 then { s with Expire := now + 24 * 3600 } else s
  let s2 := { s1 with Message := b64EncSecret }
  match db.putErr with
  | some e => { secret := s2, db := db, err := some e }
  | none =>
      { secret := s2
        db := { db with items := s2 :: db.items.filter (fun t => t.Secret != s2.Secret) }
        err := none }

/-- Body of Reveal after a successful Query, taking the list of items
the store returned for the key. Mirrors dynamo.go lines 148-205: empty
result, IP check, existence-only mode, base64 decode with its two error
messages, then DeleteItem (whose failure is surfaced unchanged with the
zero-valued response) and on success the populated response and the
record removed from the store. -/
def revealFound (id ip : String) (reveal : Bool) (db : DB) : List Secret → RevealResult
  | [] =>
      { revealed := {}, err := some "no items found", db := db, queryCalls := 1, deleteCalls := 0 }
  | s :: _ =>
      if s.Ip.length != 0 && s.Ip != ip then
        { revealed := {}, err := some "not found", db := db, queryCalls := 1, deleteCalls := 0 }
      else if !reveal then
        if s.Secret == id then
          { revealed := { Exists := true }, err := none, db := db, queryCalls := 1, deleteCalls := 0 }
        else
          { revealed := {}, err := none, db := db, queryCalls := 1, deleteCalls := 0 }
      else
        match decodeBase64 s.Message with
        | none =>
            { revealed := {}, err := some "could not decode secret", db := db
              queryCalls := 1, deleteCalls := 0 }
        | some secret =>
            if secret.length == 0 then
              { revealed := {}, err := some "could not decode secret, got 0 chars and error: <nil>"
                db := db, queryCalls := 1, deleteCalls := 0 }
            else
              match db.deleteErr with
              | some e =>
                  { revealed := {}, err := some e, db := db, queryCalls := 1, deleteCalls := 1 }
              | none =>
                  { revealed :=
                      { Secret := s.Message, Exists := true, Hint := s.Hint
                        HasPass := s.HasPass, Tag := s.Tag, Iv := s.Iv
                        PwTag := s.PwTag, PwIv := s.PwIv }
                    err := none
                    db := { db with items := db.items.filter (fun t => t.Secret != id) }
                    queryCalls := 1, deleteCalls := 1 }

/-- Reveal of dynamo.go: validate the id against length 16 and the
regexp `\W|[g-zA-Z]` (error `bad id`, before any store call); Query the
store for the key (a query failure is surfaced unchanged); then process
the returned items. -/
def Reveal (id ip : String) (reveal : Bool) (db : DB) : RevealResult :=
  if id.length != 16 || notHex id then
    { revealed := {}, err := some "bad id", db := db, queryCalls := 0, deleteCalls := 0 }
  else
    match db.queryErr with
    | some e =>
        { revealed := {}, err := some e, db := db, queryCalls := 1, deleteCalls := 0 }
    | none => revealFound id ip reveal db (db.items.filter (fun t => t.Secret == id))

/-! Helper lemmas about the embedding. -/

/-- Removing a key from the table leaves nothing for a query on that key. -/
theorem filter_key_removed (l : List Secret) (i : String) :
    (l.filter (fun t => t.Secret != i)).filter (fun t => t.Secret == i) = [] := by
  rw [List.filter_eq_nil_iff]
  intro a ha
  have h := List.of_mem_filter ha
  simp_all

/-- Reveal after a passing validation and a successful query is revealFound
on the records matching the key. -/
theorem Reveal_valid (id ip : String) (c : Bool) (db : DB)
    (hlen : id.length = 16) (hhex : notHex id = false) (hq : db.queryErr = none) :
    Reveal id ip c db = revealFound id ip c db (db.items.filter (fun t => t.Secret == id)) := by
  unfold Reveal
  rw [hq, hlen, hhex]
  rfl

/-- A decimal digit matches none of the rejection classes. -/
theorem notHexChar_digit {c : Char} (h1 : '0' ≤ c) (h2 : c ≤ '9') : notHexChar c = false := by
  have hg : ¬ ('g' ≤ c) := not_le.mpr (lt_of_le_of_lt h2 (by decide))
  have hA : ¬ ('A' ≤ c) := not_le.mpr (lt_of_le_of_lt h2 (by decide))
  simp [notHexChar, wordChar, h1, h2, hg, hA]

/-- A lowercase letter in a–f matches none of the rejection classes. -/
theorem notHexChar_lower_af {c : Char} (h1 : 'a' ≤ c) (h2 : c ≤ 'f') : notHexChar c = false := by
  have hz : c ≤ 'z' := le_trans h2 (by decide)
  have hg : ¬ ('g' ≤ c) := not_le.mpr (lt_of_le_of_lt h2 (by decide))
  have hZ : ¬ (c ≤ 'Z') := not_le.mpr (lt_of_lt_of_le (by decide) h1)
  simp [notHexChar, wordChar, h1, hz, hg, hZ]

/-- A letter in g–z or in A–Z matches the rejection class. -/
theorem notHexChar_letter {c : Char}
    (h : ('g' ≤ c ∧ c ≤ 'z') ∨ ('A' ≤ c ∧ c ≤ 'Z')) : notHexChar c = true := by
  rcases h with ⟨h1, h2⟩ | ⟨h1, h2⟩ <;> simp [notHexChar, h1, h2]

/-- The receiver written by Save keeps its key and origin and stores the
payload in `Message`. -/
theorem Save_secret_fields (s : Secret) (P : String) (now : Int) (db : DB) :
    (Save s P now db).secret.Secret = s.Secret ∧
    (Save s P now db).secret.Message = P ∧
    (Save s P now db).secret.Ip = s.Ip := by
  by_cases he : (s.Expire == 0) = true
  · cases hp : db.putErr
    · simp [Save, he, hp]
    · simp [Save, he, hp]
  · cases hp : db.putErr
    · simp [Save, he, hp]
    · simp [Save, he, hp]

/-- On a successful put, Save replaces the item under the record's key and
touches nothing else in the store state. -/
theorem Save_db_items (s : Secret) (P : String) (now : Int) (db : DB) (hp : db.putErr = none) :
    (Save s P now db).db.items
        = (Save s P now db).secret
            :: db.items.filter (fun t => t.Secret != (Save s P now db).secret.Secret) ∧
    (Save s P now db).db.queryErr = db.queryErr ∧
    (Save s P now db).db.deleteErr = db.deleteErr ∧
    (Save s P now db).err = none := by
  unfold Save
  rw [hp]
  exact ⟨rfl, rfl, rfl, rfl⟩

/-- A nonempty string has nonzero length. -/
theorem String.length_ne_zero {s : String} (h : s ≠ "") : s.length ≠ 0 := by
  intro hl
  apply h
  cases s with
  | mk data =>
    simp [String.length] at hl
    simp [hl]

/-- Reveal with a passing validation and successful query whose result is a
known item list. -/
theorem Reveal_found (id ip : String) (c : Bool) (db : DB) (s : Secret) (rest : List Secret)
    (hlen : id.length = 16) (hhex : notHex id = false) (hq : db.queryErr = none)
    (hfind : db.items.filter (fun t => t.Secret == id) = s :: rest) :
    Reveal id ip c db = revealFound id ip c db (s :: rest) := by
  rw [Reveal_valid id ip c db hlen hhex hq, hfind]

/-- A record whose origin is empty or equal to the requester passes the
IP check. -/
theorem ip_check_passes {s : Secret} {ip : String} (hip : s.Ip = "" ∨ s.Ip = ip) :
    (s.Ip.length != 0 && s.Ip != ip) = false := by
  rcases hip with h | h
  · simp [h]
  · simp [h]

/-- Every branch of revealFound reports exactly one Query call. -/
theorem revealFound_queryCalls (id ip : String) (c : Bool) (db : DB) (l : List Secret) :
    (revealFound id ip c db l).queryCalls = 1 := by
  cases l with
  | nil => rfl
  | cons s rest =>
    simp only [revealFound]
    repeat' split
    all_goals rfl

/-! Claim theorems. -/

/-- C6: SetTimeout with an hour count h in [1,72] succeeds and sets Expire
to now + h hours; with h ≤ 0 or h > 72 it fails with the invalid-duration
error and returns the record with every field unchanged. -/
theorem SetTimeout_spec (s : Secret) (now : Int) :
    (1 ≤ s.Hours ∧ s.Hours ≤ 72 →
      SetTimeout s now = ({ s with Expire := now + 3600 * s.Hours }, none)) ∧
    (s.Hours ≤ 0 ∨ 72 < s.Hours →
      SetTimeout s now = (s, some "invalid expiration")) := by
  constructor
  · rintro ⟨h1, h2⟩
    unfold SetTimeout
    split
    · next hcond =>
        simp at hcond
        omega
    · rfl
  · intro h
    unfold SetTimeout
    split
    · rfl
    · next hcond =>
        simp at hcond
        omega

/-- C6 witness: at Hours = 5 the timeout is accepted and Expire becomes
now + 5 hours, and at Hours = 73 it is rejected unchanged. -/
theorem SetTimeout_spec_witness :
    (SetTimeout { Hours := 5 } 1000 = ({ Hours := 5, Expire := 1000 + 3600 * 5 }, none)) ∧
    (SetTimeout { Hours := 73 } 1000 = ({ Hours := 73 }, some "invalid expiration")) :=
  ⟨(SetTimeout_spec { Hours := 5 } 1000).1 (by decide),
   (SetTimeout_spec { Hours := 73 } 1000).2 (by decide)⟩

/-- C7: NewSecret sets Expire to creation time + 72h; an immediate Save
keeps that value (the 24h fallback never overrides a nonzero expiry),
and the fallback applies exactly when Expire is zero at Save time. -/
theorem Save_expire_default (now nowS : Int) (id P : String) (db : DB) (s : Secret)
    (hnow : 0 < now) :
    (NewSecret now (Except.ok id)).Expire = now + 72 * 3600 ∧
    (Save (NewSecret now (Except.ok id)) P nowS db).secret.Expire = now + 72 * 3600 ∧
    (s.Expire ≠ 0 → (Save s P nowS db).secret.Expire = s.Expire) ∧
    (s.Expire = 0 → (Save s P nowS db).secret.Expire = nowS + 24 * 3600) := by
  refine ⟨rfl, ?_, ?_, ?_⟩
  · have he : ((NewSecret now (Except.ok id)).Expire == 0) = false := by
      have h72 : (NewSecret now (Except.ok id)).Expire = now + 72 * 3600 := rfl
      rw [h72, beq_eq_false_iff_ne]
      omega
    cases hp : db.putErr
    · simp [Save, he, hp, NewSecret]
      rw [if_neg (show ¬ now + 259200 = 0 by omega)]
    · simp [Save, he, hp, NewSecret]
      rw [if_neg (show ¬ now + 259200 = 0 by omega)]
  · intro h
    have he : (s.Expire == 0) = false := by
      rw [beq_eq_false_iff_ne]
      exact h
    cases hp : db.putErr
    · simp [Save, he, hp]
    · simp [Save, he, hp]
  · intro h
    have he : (s.Expire == 0) = true := by
      rw [beq_iff_eq]
      exact h
    cases hp : db.putErr
    · simp [Save, he, hp]
    · simp [Save, he, hp]

/-- C7 witness: a record created at time 1000 carries Expire 1000 + 72h
through an immediate Save, and a zero-expiry record saved at time 2000
gets 2000 + 24h. -/
theorem Save_expire_default_witness :
    (NewSecret 1000 (Except.ok "0123456789abcdef")).Expire = 1000 + 72 * 3600 ∧
    (Save (NewSecret 1000 (Except.ok "0123456789abcdef")) "QQ==" 2000 {}).secret.Expire
      = 1000 + 72 * 3600 ∧
    ((3 : Int) ≠ 0 → (Save { Expire := 3 } "QQ==" 2000 {}).secret.Expire = 3) ∧
    ((0 : Int) = 0 → (Save { Expire := 0 } "QQ==" 2000 {}).secret.Expire = 2000 + 24 * 3600) := by
  have h1 := Save_expire_default 1000 2000 "0123456789abcdef" "QQ==" {} { Expire := 3 } (by decide)
  have h2 := Save_expire_default 1000 2000 "0123456789abcdef" "QQ==" {} { Expire := 0 } (by decide)
  exact ⟨h1.1, h1.2.1, fun h => h1.2.2.1 h, fun h => h2.2.2.2 h⟩

/-- C8: an identifier of length other than 16, or containing a letter in
g–z or an uppercase letter in A–Z, makes Reveal fail immediately with
the bad-id error, no store call issued and the store untouched. -/
theorem invalid_id_rejected (id ip : String) (c : Bool) (db : DB)
    (h : id.length ≠ 16 ∨ ∃ ch ∈ id.toList, ('g' ≤ ch ∧ ch ≤ 'z') ∨ ('A' ≤ ch ∧ ch ≤ 'Z')) :
    Reveal id ip c db
      = { revealed := {}, err := some "bad id", db := db, queryCalls := 0, deleteCalls := 0 } := by
  have hval : (id.length != 16 || notHex id) = true := by
    rcases h with h | ⟨ch, hm, hr⟩
    · simp [h]
    · have hh : notHex id = true := by
        unfold notHex
        rw [List.any_eq_true]
        exact ⟨ch, hm, notHexChar_letter hr⟩
      simp [hh]
  simp [Reveal, hval]

/-- C8 witness: the 16-character id ending in the letter g is rejected
with no store access. -/
theorem invalid_id_rejected_witness :
    (∃ ch ∈ "0123456789abcdeg".toList, ('g' ≤ ch ∧ ch ≤ 'z') ∨ ('A' ≤ ch ∧ ch ≤ 'Z')) ∧
    Reveal "0123456789abcdeg" "1.2.3.4" true {}
      = { revealed := {}, err := some "bad id", db := {}, queryCalls := 0, deleteCalls := 0 } :=
  ⟨by decide, invalid_id_rejected "0123456789abcdeg" "1.2.3.4" true {} (Or.inr (by decide))⟩

/-- C9 counterexample: the 16-character identifier 0123456789abcdeA lies
entirely in [0-9a-fA-F], yet Reveal rejects it as a bad id before any
store call — uppercase hex digits fall in the rejected class A–Z. -/
theorem uppercase_hex_rejected :
    ("0123456789abcdeA".length = 16 ∧
      "0123456789abcdeA".toList.all
        (fun c => ('0' ≤ c && c ≤ '9') || ('a' ≤ c && c ≤ 'f') || ('A' ≤ c && c ≤ 'F')) = true) ∧
    (Reveal "0123456789abcdeA" "1.2.3.4" true {}).err = some "bad id" ∧
    (Reveal "0123456789abcdeA" "1.2.3.4" true {}).queryCalls = 0 := by
  exact ⟨⟨rfl, rfl⟩, rfl, rfl⟩

/-- C9 amended: a 16-character identifier all of whose characters are
digits or lowercase a–f passes validation and reaches the store lookup
(exactly one Query call is issued). -/
theorem lowercase_hex_reaches_lookup (id ip : String) (c : Bool) (db : DB)
    (hlen : id.length = 16)
    (hch : ∀ ch ∈ id.toList, ('0' ≤ ch ∧ ch ≤ '9') ∨ ('a' ≤ ch ∧ ch ≤ 'f')) :
    (Reveal id ip c db).queryCalls = 1 := by
  have hhex : notHex id = false := by
    unfold notHex
    rw [List.any_eq_false]
    intro ch hm
    rcases hch ch hm with ⟨h1, h2⟩ | ⟨h1, h2⟩
    · simp [notHexChar_digit h1 h2]
    · simp [notHexChar_lower_af h1 h2]
  have hval : (id.length != 16 || notHex id) = false := by simp [hlen, hhex]
  cases hq : db.queryErr with
  | some e => simp [Reveal, hval, hq]
  | none => simp [Reveal, hval, hq, revealFound_queryCalls]

/-- C9 amended witness: the all-lowercase-hex id 0123456789abcdef reaches
the store lookup. -/
theorem lowercase_hex_reaches_lookup_witness :
    "0123456789abcdef".length = 16 ∧
    (Reveal "0123456789abcdef" "1.2.3.4" true {}).queryCalls = 1 :=
  ⟨rfl, lowercase_hex_reaches_lookup "0123456789abcdef" "1.2.3.4" true {} rfl (by decide)⟩

/-- C10: the 16-underscore identifier contains no hex digit, yet passes
validation (underscore is a word character outside both letter ranges)
and reaches the store lookup in every store state. -/
theorem underscore_id_reaches_lookup :
    ("________________".length = 16 ∧
      "________________".toList.all (fun c => c == '_') = true ∧
      notHex "________________" = false) ∧
    ∀ (ip : String) (c : Bool) (db : DB),
      (Reveal "________________" ip c db).queryCalls = 1 := by
  refine ⟨⟨rfl, rfl, rfl⟩, ?_⟩
  intro ip c db
  have hval : ("________________".length != 16 || notHex "________________") = false := rfl
  cases hq : db.queryErr with
  | some e => simp [Reveal, hval, hq]
  | none => simp [Reveal, hval, hq, revealFound_queryCalls]

/-- C4 counterexample: with no record stored, Reveal fails with the
message `no items found`; with a record stored under the same id but a
mismatched origin address, it fails with the different message
`not found` — the two signals are not identical. -/
theorem notfound_signals_differ :
    (Reveal "0123456789abcdef" "10.0.0.2" true {}).err = some "no items found" ∧
    (Reveal "0123456789abcdef" "10.0.0.2" true
        { items := [{ Secret := "0123456789abcdef", Ip := "10.0.0.1", Message := "QQ==" }] }).err
      = some "not found" ∧
    (some "no items found" : Option String) ≠ some "not found" := by
  exact ⟨rfl, rfl, by decide⟩

/-- C1 counterexample: saving the empty payload succeeds, but the first
destructive reveal already fails with a decode error instead of
returning the payload with exists = true. -/
theorem roundtrip_empty_payload_fails :
    (Save { Secret := "0123456789abcdef" } "" 1000 {}).err = none ∧
    (Reveal "0123456789abcdef" "1.2.3.4" true
        (Save { Secret := "0123456789abcdef" } "" 1000 {}).db).err
      = some "could not decode secret, got 0 chars and error: <nil>" ∧
    (Reveal "0123456789abcdef" "1.2.3.4" true
        (Save { Secret := "0123456789abcdef" } "" 1000 {}).db).revealed.Exists = false := by
  exact ⟨rfl, rfl, rfl⟩

/-- C4 amended: genuine absence and origin mismatch both fail the reveal
and return no payload, but the two signals are distinct error messages:
absence yields `no items found` while a non-empty stored origin that
differs from the requester yields `not found`. -/
theorem notfound_vs_mismatch (id ip : String) (c : Bool) (db1 db2 : DB) (s : Secret)
    (rest : List Secret)
    (hlen : id.length = 16) (hhex : notHex id = false)
    (hq1 : db1.queryErr = none)
    (habsent : db1.items.filter (fun t => t.Secret == id) = [])
    (hq2 : db2.queryErr = none)
    (hfind : db2.items.filter (fun t => t.Secret == id) = s :: rest)
    (hipne : s.Ip ≠ "") (hmm : s.Ip ≠ ip) :
    (Reveal id ip c db1).err = some "no items found" ∧
    (Reveal id ip c db1).revealed.Secret = "" ∧
    (Reveal id ip c db2).err = some "not found" ∧
    (Reveal id ip c db2).revealed.Secret = "" := by
  have h1 : Reveal id ip c db1 = revealFound id ip c db1 [] := by
    rw [Reveal_valid id ip c db1 hlen hhex hq1, habsent]
  have h2 := Reveal_found id ip c db2 s rest hlen hhex hq2 hfind
  have hipc : (s.Ip.length != 0 && s.Ip != ip) = true := by
    have hl : s.Ip.length ≠ 0 := String.length_ne_zero hipne
    simp [hl, hmm]
  rw [h1, h2]
  simp [revealFound, hipc]

/-- C4 amended witness: an absent id versus a stored record whose origin
10.0.0.1 differs from the requester 10.0.0.2. -/
theorem notfound_vs_mismatch_witness :
    ("10.0.0.1" : String) ≠ "10.0.0.2" ∧
    (Reveal "0123456789abcdef" "10.0.0.2" true {}).err = some "no items found" ∧
    (Reveal "0123456789abcdef" "10.0.0.2" true
        { items := [{ Secret := "0123456789abcdef", Ip := "10.0.0.1" }] }).err
      = some "not found" :=
  have h := notfound_vs_mismatch "0123456789abcdef" "10.0.0.2" true {}
      { items := [{ Secret := "0123456789abcdef", Ip := "10.0.0.1" }] }
      { Secret := "0123456789abcdef", Ip := "10.0.0.1" } []
      rfl rfl rfl rfl rfl rfl (by decide) (by decide)
  ⟨by decide, h.1, h.2.2.1⟩

/-- C5: an existence-check call (consume = false) that passes validation,
finds a record and passes the origin check issues no delete, leaves the
store untouched, and returns exists = true with an empty payload and no
error. -/
theorem exists_mode_no_side_effects (id ip : String) (db : DB) (s : Secret) (rest : List Secret)
    (hlen : id.length = 16) (hhex : notHex id = false) (hq : db.queryErr = none)
    (hfind : db.items.filter (fun t => t.Secret == id) = s :: rest)
    (hip : s.Ip = "" ∨ s.Ip = ip) :
    (Reveal id ip false db).deleteCalls = 0 ∧
    (Reveal id ip false db).db = db ∧
    (Reveal id ip false db).err = none ∧
    (Reveal id ip false db).revealed.Exists = true ∧
    (Reveal id ip false db).revealed.Secret = "" := by
  have h1 := Reveal_found id ip false db s rest hlen hhex hq hfind
  have hipc := ip_check_passes hip
  have hsid : (s.Secret == id) = true := by
    have hm : s ∈ db.items.filter (fun t => t.Secret == id) := by
      rw [hfind]
      exact List.mem_cons_self s rest
    exact (List.mem_filter.mp hm).2
  rw [h1]
  simp [revealFound, hipc, hsid]

/-- C5 witness: an existence check on a stored record leaves the store
as it was and reports existence without the payload. -/
theorem exists_mode_witness :
    (Reveal "0123456789abcdef" "1.2.3.4" false
        { items := [{ Secret := "0123456789abcdef", Message := "QQ==" }] }).deleteCalls = 0 ∧
    (Reveal "0123456789abcdef" "1.2.3.4" false
        { items := [{ Secret := "0123456789abcdef", Message := "QQ==" }] }).db
      = { items := [{ Secret := "0123456789abcdef", Message := "QQ==" }] } ∧
    (Reveal "0123456789abcdef" "1.2.3.4" false
        { items := [{ Secret := "0123456789abcdef", Message := "QQ==" }] }).err = none ∧
    (Reveal "0123456789abcdef" "1.2.3.4" false
        { items := [{ Secret := "0123456789abcdef", Message := "QQ==" }] }).revealed.Exists
      = true ∧
    (Reveal "0123456789abcdef" "1.2.3.4" false
        { items := [{ Secret := "0123456789abcdef", Message := "QQ==" }] }).revealed.Secret
      = "" :=
  exists_mode_no_side_effects "0123456789abcdef" "1.2.3.4"
      { items := [{ Secret := "0123456789abcdef", Message := "QQ==" }] }
      { Secret := "0123456789abcdef", Message := "QQ==" } []
      rfl rfl rfl rfl (Or.inl rfl)

/-- C2: in destructive mode, when the stored payload decodes to a
non-empty byte string but the delete fails, Reveal surfaces the store
error unchanged and the response is the zero value — no payload is
disclosed. -/
theorem delete_failure_suppresses_payload (id ip e : String) (db : DB) (s : Secret)
    (rest : List Secret) (bs : List Nat)
    (hlen : id.length = 16) (hhex : notHex id = false) (hq : db.queryErr = none)
    (hfind : db.items.filter (fun t => t.Secret == id) = s :: rest)
    (hip : s.Ip = "" ∨ s.Ip = ip)
    (hdec : decodeBase64 s.Message = some bs) (hne : bs ≠ [])
    (hdel : db.deleteErr = some e) :
    (Reveal id ip true db).err = some e ∧
    (Reveal id ip true db).revealed = {} := by
  have h1 := Reveal_found id ip true db s rest hlen hhex hq hfind
  have hipc := ip_check_passes hip
  have hlenb : (bs.length == 0) = false := by
    rw [beq_eq_false_iff_ne]
    exact fun h => hne (List.length_eq_zero.mp h)
  rw [h1]
  simp [revealFound, hipc, hdec, hlenb, hdel]

/-- C2 witness: a failing delete (connection reset) after a successful
decode returns that error with a zero-valued response. -/
theorem delete_failure_witness :
    (Reveal "0123456789abcdef" "1.2.3.4" true
        { items := [{ Secret := "0123456789abcdef", Message := "QQ==" }],
          deleteErr := some "connection reset" }).err = some "connection reset" ∧
    (Reveal "0123456789abcdef" "1.2.3.4" true
        { items := [{ Secret := "0123456789abcdef", Message := "QQ==" }],
          deleteErr := some "connection reset" }).revealed = {} :=
  delete_failure_suppresses_payload "0123456789abcdef" "1.2.3.4" "connection reset"
      { items := [{ Secret := "0123456789abcdef", Message := "QQ==" }],
        deleteErr := some "connection reset" }
      { Secret := "0123456789abcdef", Message := "QQ==" } [] [65]
      rfl rfl rfl rfl (Or.inl rfl) rfl (by decide) rfl

/-- C3: in destructive mode, a payload that fails to decode or decodes
empty produces a decode error with zero delete calls; a payload that
decodes non-empty, when the delete succeeds, produces exactly one delete
call and exists = true with the non-empty stored payload. -/
theorem decode_before_delete (id ip : String) (db : DB) (s : Secret) (rest : List Secret)
    (hlen : id.length = 16) (hhex : notHex id = false) (hq : db.queryErr = none)
    (hfind : db.items.filter (fun t => t.Secret == id) = s :: rest)
    (hip : s.Ip = "" ∨ s.Ip = ip) :
    ((decodeBase64 s.Message).getD [] = [] →
      (Reveal id ip true db).deleteCalls = 0 ∧
      ((Reveal id ip true db).err = some "could not decode secret" ∨
        (Reveal id ip true db).err
          = some "could not decode secret, got 0 chars and error: <nil>")) ∧
    ((decodeBase64 s.Message).getD [] ≠ [] → db.deleteErr = none →
      (Reveal id ip true db).deleteCalls = 1 ∧
      (Reveal id ip true db).revealed.Exists = true ∧
      (Reveal id ip true db).revealed.Secret = s.Message ∧
      s.Message ≠ "") := by
  have h1 := Reveal_found id ip true db s rest hlen hhex hq hfind
  have hipc := ip_check_passes hip
  constructor
  · intro hd
    cases hdec : decodeBase64 s.Message with
    | none =>
        rw [h1]
        simp [revealFound, hipc, hdec]
    | some bs =>
        rw [hdec] at hd
        simp at hd
        rw [h1]
        simp [revealFound, hipc, hdec, hd]
  · intro hd hdel
    cases hdec : decodeBase64 s.Message with
    | none =>
        rw [hdec] at hd
        simp at hd
    | some bs =>
        rw [hdec] at hd
        simp at hd
        have hlenb : (bs.length == 0) = false := by
          rw [beq_eq_false_iff_ne]
          exact fun h => hd (List.length_eq_zero.mp h)
        have hmsg : s.Message ≠ "" := by
          intro hm
          rw [hm] at hdec
          have h0 : decodeBase64 "" = some ([] : List Nat) := rfl
          rw [h0] at hdec
          exact hd (Option.some.inj hdec).symm
        rw [h1]
        simp [revealFound, hipc, hdec, hlenb, hdel, hmsg]

/-- C3 witness: an undecodable stored payload makes Reveal fail with a
decode error and zero delete calls, while a decodable one triggers
exactly one delete and returns the payload. -/
theorem decode_before_delete_witness :
    ((Reveal "0123456789abcdef" "1.2.3.4" true
        { items := [{ Secret := "0123456789abcdef", Message := "!" }] }).deleteCalls = 0 ∧
      ((Reveal "0123456789abcdef" "1.2.3.4" true
          { items := [{ Secret := "0123456789abcdef", Message := "!" }] }).err
          = some "could not decode secret" ∨
        (Reveal "0123456789abcdef" "1.2.3.4" true
          { items := [{ Secret := "0123456789abcdef", Message := "!" }] }).err
          = some "could not decode secret, got 0 chars and error: <nil>")) ∧
    ((Reveal "0123456789abcdef" "1.2.3.4" true
        { items := [{ Secret := "0123456789abcdef", Message := "QQ==" }] }).deleteCalls = 1 ∧
      (Reveal "0123456789abcdef" "1.2.3.4" true
        { items := [{ Secret := "0123456789abcdef", Message := "QQ==" }] }).revealed.Exists
        = true ∧
      (Reveal "0123456789abcdef" "1.2.3.4" true
        { items := [{ Secret := "0123456789abcdef", Message := "QQ==" }] }).revealed.Secret
        = "QQ==" ∧
      ("QQ==" : String) ≠ "") :=
  ⟨(decode_before_delete "0123456789abcdef" "1.2.3.4"
      { items := [{ Secret := "0123456789abcdef", Message := "!" }] }
      { Secret := "0123456789abcdef", Message := "!" } []
      rfl rfl rfl rfl (Or.inl rfl)).1 (by decide),
   (decode_before_delete "0123456789abcdef" "1.2.3.4"
      { items := [{ Secret := "0123456789abcdef", Message := "QQ==" }] }
      { Secret := "0123456789abcdef", Message := "QQ==" } []
      rfl rfl rfl rfl (Or.inl rfl)).2 (by decide) rfl⟩

/-- C1 amended: for a payload that is valid base64 of a non-empty byte
string, saving it under a valid identifier with no origin binding and
then revealing destructively succeeds, returns the stored payload with
exists = true, and a second destructive reveal fails with the
`no items found` (NotFound) error. -/
theorem save_reveal_roundtrip (P I ip : String) (s : Secret) (db : DB) (now : Int) (bs : List Nat)
    (hdec : decodeBase64 P = some bs) (hne : bs ≠ [])
    (hlen : I.length = 16) (hhex : notHex I = false)
    (hsid : s.Secret = I) (hip : s.Ip = "")
    (hp : db.putErr = none) (hq : db.queryErr = none) (hd : db.deleteErr = none) :
    (Save s P now db).err = none ∧
    (Reveal I ip true (Save s P now db).db).err = none ∧
    (Reveal I ip true (Save s P now db).db).revealed.Exists = true ∧
    (Reveal I ip true (Save s P now db).db).revealed.Secret = P ∧
    (Reveal I ip true (Reveal I ip true (Save s P now db).db).db).err
      = some "no items found" := by
  obtain ⟨hS, hM, hI⟩ := Save_secret_fields s P now db
  obtain ⟨hitems, hq2, hd2, herr⟩ := Save_db_items s P now db hp
  have hAI : (Save s P now db).secret.Secret = I := by rw [hS, hsid]
  have hfind : (Save s P now db).db.items.filter (fun t => t.Secret == I)
      = [(Save s P now db).secret] := by
    rw [hitems]
    simp only [hAI]
    rw [List.filter_cons_of_pos]
    · rw [filter_key_removed]
    · simp [hAI]
  have hq2' : (Save s P now db).db.queryErr = none := by rw [hq2, hq]
  have hd2' : (Save s P now db).db.deleteErr = none := by rw [hd2, hd]
  have h1 := Reveal_found I ip true (Save s P now db).db (Save s P now db).secret []
    hlen hhex hq2' hfind
  have hipc : ((Save s P now db).secret.Ip.length != 0
      && (Save s P now db).secret.Ip != ip) = false :=
    ip_check_passes (Or.inl (by rw [hI, hip]))
  have hdecA : decodeBase64 (Save s P now db).secret.Message = some bs := by
    rw [hM]
    exact hdec
  have hlenb : (bs.length == 0) = false := by
    rw [beq_eq_false_iff_ne]
    exact fun h => hne (List.length_eq_zero.mp h)
  have hdb1 : (Reveal I ip true (Save s P now db).db).db
      = { (Save s P now db).db with
          items := (Save s P now db).db.items.filter (fun t => t.Secret != I) } := by
    rw [h1]
    simp [revealFound, hipc, hdecA, hlenb, hd2']
  have hq3 : (Reveal I ip true (Save s P now db).db).db.queryErr = none := by
    rw [hdb1]
    exact hq2'
  have hfind2 : (Reveal I ip true (Save s P now db).db).db.items.filter
      (fun t => t.Secret == I) = [] := by
    rw [hdb1]
    exact filter_key_removed _ I
  refine ⟨herr, ?_, ?_, ?_, ?_⟩
  · rw [h1]
    simp [revealFound, hipc, hdecA, hlenb, hd2']
  · rw [h1]
    simp [revealFound, hipc, hdecA, hlenb, hd2']
  · rw [h1]
    simp [revealFound, hipc, hdecA, hlenb, hd2', hM, hdec, hne]
  · rw [Reveal_valid I ip true _ hlen hhex hq3, hfind2]
    rfl

/-- C1 amended witness: the payload QQ== (base64 of the byte 65) saved
under 0123456789abcdef round-trips once and is gone on the second
destructive reveal. -/
theorem save_reveal_roundtrip_witness :
    decodeBase64 "QQ==" = some [65] ∧
    (Save { Secret := "0123456789abcdef" } "QQ==" 1000 {}).err = none ∧
    (Reveal "0123456789abcdef" "1.2.3.4" true
        (Save { Secret := "0123456789abcdef" } "QQ==" 1000 {}).db).err = none ∧
    (Reveal "0123456789abcdef" "1.2.3.4" true
        (Save { Secret := "0123456789abcdef" } "QQ==" 1000 {}).db).revealed.Exists = true ∧
    (Reveal "0123456789abcdef" "1.2.3.4" true
        (Save { Secret := "0123456789abcdef" } "QQ==" 1000 {}).db).revealed.Secret = "QQ==" ∧
    (Reveal "0123456789abcdef" "1.2.3.4" true
        (Reveal "0123456789abcdef" "1.2.3.4" true
            (Save { Secret := "0123456789abcdef" } "QQ==" 1000 {}).db).db).err
      = some "no items found" :=
  have h := save_reveal_roundtrip "QQ==" "0123456789abcdef" "1.2.3.4"
      { Secret := "0123456789abcdef" } {} 1000 [65] rfl (by decide) rfl rfl rfl rfl rfl rfl rfl
  ⟨rfl, h.1, h.2.1, h.2.2.1, h.2.2.2.1, h.2.2.2.2⟩
